import Mathlib

/-!
Verification of the Build HAT serial-protocol engine (python-build-hat).

This file shallowly embeds the parts of the library relevant to the checked
properties:

* `BuildHat.checksum`            — `BuildHAT.checksum` (serinterface.py)
* `BuildHat.runToPositionDelta`  — the target-delta arithmetic of
                                   `Motor._run_to_position` (motors.py)
* `BuildHat.detectStep`/`detectRun` — `BuildHAT._what_state_are_we_in`
                                   (serinterface.py), boot-state detection
* `BuildHat.loopStep`/`runLoop`  — the reader/dispatcher loop `BuildHAT.loop`
                                   (serinterface.py)
* `BuildHat.use_device` / `Device._used` registry — port ownership
* `BuildHat.matrixOff`           — `Matrix.off` / `Matrix._output` (matrix.py)
* `BuildHat.passiveMotorStart` / `motorStart` — `PassiveMotor.start` and
                                   `Motor.start` (motors.py)

Machine integers are modelled as `Nat`/`Int` with explicit masking where the
Python code masks; Python's `%` on a positive modulus coincides with `Int`'s
`%` (`Int.emod`), which is nonnegative for a positive divisor.
-/

namespace BuildHat

/-! ### Checksum (serinterface.py, `BuildHAT.checksum`)

```python
u = 1
for i in range(0, len(data)):
    if (u & 0x80000000) != 0:
        u = (u << 1) ^ 0x1d872b41
    else:
        u = u << 1
    u = (u ^ data[i]) & 0xFFFFFFFF
return u
```
-/

def checksumStep (u b : Nat) : Nat :=
  let u1 := if u &&& 0x80000000 ≠ 0 then (u <<< 1) ^^^ 0x1d872b41 else u <<< 1
  (u1 ^^^ b) &&& 0xFFFFFFFF

def checksum (data : List Nat) : Nat :=
  data.foldl checksumStep 1

theorem checksumStep_le (u b : Nat) : checksumStep u b ≤ 0xFFFFFFFF := by
  unfold checksumStep
  exact Nat.and_le_right

theorem checksum_foldl_le (data : List Nat) (u : Nat) (h : u ≤ 0xFFFFFFFF) :
    data.foldl checksumStep u ≤ 0xFFFFFFFF := by
  induction data generalizing u with
  | nil => exact h
  | cons b rest ih => exact ih _ (checksumStep_le u b)

/-! ### Run-to-position arithmetic (motors.py, `Motor._run_to_position`)

```python
diff = (degrees - apos + 180) % 360 - 180
newpos = (pos + diff) / 360
v1 = (degrees - apos) % 360
v2 = (apos - degrees) % 360
mul = 1
if diff > 0:
    mul = -1
diff = sorted([diff, mul * (v2 if abs(diff) == v1 else v1)])
if direction == "shortest":
    pass
elif direction == "clockwise":
    newpos = (pos + diff[1]) / 360
elif direction == "anticlockwise":
    newpos = (pos + diff[0]) / 360
```
`sorted [a, b] = [min a b, max a b]`, so `diff[1] = max` and `diff[0] = min`.
-/

inductive Direction
  | shortest
  | clockwise
  | anticlockwise
deriving DecidableEq, Repr

/-- The signed delta (in degrees) that `Motor._run_to_position` adds to the
current relative position `pos`; `newpos = (pos + delta) / 360`. -/
def runToPositionDelta (degrees apos : Int) (dir : Direction) : Int :=
  let diff := (degrees - apos + 180) % 360 - 180
  let v1 := (degrees - apos) % 360
  let v2 := (apos - degrees) % 360
  let mul : Int := if 0 < diff then -1 else 1
  let other := mul * (if |diff| = v1 then v2 else v1)
  match dir with
  | .shortest => diff
  | .clockwise => max diff other
  | .anticlockwise => min diff other

/-- The new ramp target in decimal rotations: `newpos = (pos + delta) / 360`
(`pos` is the current relative position in degrees). -/
def runToPositionNewpos (degrees apos : Int) (pos : ℚ) (dir : Direction) : ℚ :=
  (pos + (runToPositionDelta degrees apos dir : ℚ)) / 360

/-! ### Wire lines and Python-style parsing

Serial lines are byte strings decoded as text; they are modelled as `List Char`.
-/

abbrev Line := List Char

/-- `cmp(str1, str2)`: look for `str2` at the start of `str1`
(`str1[:len(str2)] == str2`). -/
def cmp (str1 str2 : Line) : Bool :=
  str1.take str2.length == str2

def crlf : Line := "\r\n".data

/-- The class constants of `BuildHAT` (serinterface.py). -/
def CONNECTED : Line := ": connected to active ID".data

def CONNECTEDPASSIVE : Line := ": connected to passive ID".data

def DISCONNECTED : Line := ": disconnected".data

def DEVTIMEOUT : Line := ": timeout during data phase: disconnecting".data

def NOTCONNECTED : Line := ": no device detected".data

def PULSEDONE : Line := ": pulse done".data

def RAMPDONE : Line := ": ramp done".data

def FIRMWARE : Line := "Firmware version: ".data

def BOOTLOADER : Line := "BuildHAT bootloader version".data

def DONE : Line := "Done initialising ports".data

def DEVCONNECTING : Line := ": connecting to active device".data

def DEVSERIALCOMM : Line := ": established serial communication with active ID".data

def DEVCHECKSUMERR : Line := ": checksum error: disconnecting".data

def DEVBAUDPREAMBLE : Line := "set baud rate to 115200".data

def decDigit? (c : Char) : Option Nat :=
  if c.isDigit then some (c.toNat - 48) else none

def hexDigit? (c : Char) : Option Nat :=
  if c.isDigit then some (c.toNat - 48)
  else if 'a' ≤ c ∧ c ≤ 'f' then some (c.toNat - 87)
  else if 'A' ≤ c ∧ c ≤ 'F' then some (c.toNat - 55)
  else none

/-- Value of a nonempty digit string under digit decoder `dig` in base
`base`; `none` on the empty string or any non-digit. -/
def digitsVal? (dig : Char → Option Nat) (base : Nat) (ds : List Char) : Option Nat :=
  match ds with
  | [] => none
  | _ =>
    ds.foldl
      (fun acc c =>
        match acc, dig c with
        | some n, some d => some (base * n + d)
        | _, _ => none)
      (some 0)

def stripWS (s : Line) : Line :=
  ((s.dropWhile Char.isWhitespace).reverse.dropWhile Char.isWhitespace).reverse

def signSplit : Line → Bool × Line
  | '-' :: ds => (true, ds)
  | '+' :: ds => (false, ds)
  | ds => (false, ds)

/-- Python `int(s)` (base 10): surrounding whitespace is stripped, an optional
sign is allowed, then decimal digits; `none` models `ValueError`. -/
def pyInt? (s : Line) : Option Int :=
  let p := signSplit (stripWS s)
  (digitsVal? decDigit? 10 p.2).map fun n => if p.1 then -(n : Int) else (n : Int)

/-- Python `int(s, 16)`: surrounding whitespace stripped, optional sign,
optional `0x`/`0X` prefix, then hex digits; `none` models `ValueError`. -/
def pyIntHex? (s : Line) : Option Int :=
  let p := signSplit (stripWS s)
  let ds := match p.2 with
    | '0' :: 'x' :: rest => rest
    | '0' :: 'X' :: rest => rest
    | rest => rest
  (digitsVal? hexDigit? 16 ds).map fun n => if p.1 then -(n : Int) else (n : Int)

/-! ### Boot-state detection (serinterface.py, `BuildHAT._what_state_are_we_in`) -/

inductive HatState
  | OTHER
  | FIRMWARE
  | NEEDNEWFIRMWARE
  | BOOTLOADER
deriving DecidableEq, Repr

inductive CommandState
  | SENT
  | FINISHED
  | CONFIRMED
  | NONE
deriving DecidableEq, Repr

structure DetectState where
  versionStatus : CommandState
  versionTime : Nat
  versionRetries : Nat
  junklines : Nat
  deviceChatter : Bool
deriving DecidableEq, Repr

def detectInit : DetectState :=
  { versionStatus := .NONE, versionTime := 0, versionRetries := 0,
    junklines := 0, deviceChatter := false }

inductive DetectOut
  | next (s : DetectState)
  | done (s : DetectState) (result : HatState)
  | crash
deriving DecidableEq, Repr

def DetectOut.junkCount? : DetectOut → Option Nat
  | .next s => some s.junklines
  | .done s _ => some s.junklines
  | .crash => none

def versionEcho : Line := "version\r\n".data

def errTok : Line := "Error".data

/-- The junk/device-chatter classification of an unexpected, non-empty,
non-blank line.  `none` models Python's `IndexError` when `line[2]` is read on
a line of length `< 3` that starts with `P`:

```python
if line[0] == "P" and line[2] == ":" and cmp(line[2:], BuildHAT.DEVCONNECTING):
    device_chatter = True
elif line[0] == " ":
    device_chatter = True
elif cmp(line, BuildHAT.DEVBAUDPREAMBLE):
    device_chatter = True
```
(a line starting with `P` or a space can never match `DEVBAUDPREAMBLE`, so the
`elif` chain is a disjunction). -/
def classifyChatter (line : Line) : Option Bool :=
  if line.headD ' ' == 'P' then
    match line.get? 2 with
    | none => none
    | some c => some ((c == ':' && cmp (line.drop 2) DEVCONNECTING) || cmp line DEVBAUDPREAMBLE)
  else
    some (line.headD ' ' == ' ' || cmp line DEVBAUDPREAMBLE)

/-- The timeout/retry check at the bottom of the loop body of
`_what_state_are_we_in` (`wait_for_version_timeout = 5`):

```python
if version_status != CommandState.NONE and time.time() - version_time > wait_for_version_timeout:
    version_status = CommandState.NONE
    version_retries += 1
if version_retries > 5:
    break
```
(the detected state is still `HatState.OTHER` when this `break` is reached). -/
def detectTimeoutCheck (t : Nat) (s1 : DetectState) : DetectOut :=
  let s2 := if s1.versionStatus ≠ .NONE ∧ t - s1.versionTime > 5
    then { s1 with versionStatus := .NONE, versionRetries := s1.versionRetries + 1 }
    else s1
  if s2.versionRetries > 5 then .done s2 .OTHER else .next s2

/-- The classification of one read line in `_what_state_are_we_in`, after the
top-of-iteration probe (re)send has been accounted for.  Branches that
`continue` in Python skip the timeout/retry check at the bottom of the loop
body. -/
def detectClassify (fwVersion : Int) (s : DetectState) (t : Nat) (line : Line) : DetectOut :=
  if line == crlf && s.versionStatus == .SENT then
    .next { s with versionStatus := .CONFIRMED }
  else if cmp line errTok && s.versionStatus == .CONFIRMED then
    .next { s with versionStatus := .NONE }
  else if line == versionEcho && s.versionStatus == .SENT then
    .next { s with versionStatus := .NONE }
  else if cmp line FIRMWARE then
    match pyInt? (((line.drop FIRMWARE.length).splitOn ' ').headD []) with
    | none => .crash
    | some v => .done s (if v = fwVersion then .FIRMWARE else .NEEDNEWFIRMWARE)
  else if cmp line BOOTLOADER then
    .done s .BOOTLOADER
  else
    match (if line == [] || line == crlf then some s
      else (classifyChatter line).map fun chat =>
        { s with deviceChatter := s.deviceChatter || chat,
                 junklines := s.junklines + 1 }) with
    | none => .crash
    | some s1 => detectTimeoutCheck t s1

/-- One iteration of the `_what_state_are_we_in` read loop.  `t` is the
wall-clock second at which this iteration's `readline` returns; when the probe
is (re)sent at the top of the iteration it is stamped with the same `t`
(`version_status = NONE` means the probe is resent and the timestamp reset
before the line is classified). -/
def detectStep (fwVersion : Int) (s0 : DetectState) (t : Nat) (line : Line) : DetectOut :=
  detectClassify fwVersion
    (if s0.versionStatus = .NONE
      then { s0 with versionStatus := .SENT, versionTime := t } else s0) t line

inductive DetectResult
  | finished (result : HatState)
  | crashed
  | ranOut
deriving DecidableEq, Repr

/-- Run the detection loop over a finite prefix of reads (each read is the
pair of its wall-clock second and the decoded line; a read that timed out
with no data is the empty line). -/
def detectRun (fwVersion : Int) (s : DetectState) : List (Nat × Line) → DetectResult
  | [] => .ranOut
  | (t, line) :: rest =>
    match detectStep fwVersion s t line with
    | .next s' => detectRun fwVersion s' rest
    | .done _ r => .finished r
    | .crash => .crashed

def detectStateAfter (fwVersion : Int) (s : DetectState) : List (Nat × Line) → DetectState
  | [] => s
  | (t, line) :: rest =>
    match detectStep fwVersion s t line with
    | .next s' => detectStateAfter fwVersion s' rest
    | .done s' _ => s'
    | .crash => s

def junkLine : Line := "junk\r\n".data

def fwVersionLine1 : Line := "Firmware version: 1 2023-01-01\r\n".data

/-- Six quickly-arriving junk lines followed by a matching firmware banner. -/
def c4junkTrace : List (Nat × Line) :=
  [(0, junkLine), (0, junkLine), (0, junkLine), (0, junkLine), (0, junkLine),
   (0, junkLine), (0, fwVersionLine1)]

/-- Reads that all timed out with no data, one every 6 seconds. -/
def noDataTrace : List (Nat × Line) :=
  (List.range 12).map fun i => (6 * i, [])

/-! ### The reader/dispatcher loop (serinterface.py, `BuildHAT.loop`)

The loop-relevant state is the per-port `Connection` list, the device-class
registry (`self._used`, here just the per-port "a class is registered" flag),
and the listing bookkeeping (`listing_status`, `uselist`, `count`).  The
time-based fields `device_is_connecting` / `stalled_device_timeout` and the
shutdown policy only influence when the loop thread exits and are not part of
any checked property; they are omitted.  Condition-variable notifications,
callback enqueues and serial writes performed by the loop are recorded as an
emitted `Signal` list. -/

/-- `Connection` (serinterface.py): per-port connection information.  The
last-sample buffer holds the decoded numeric fields of a data line. -/
inductive PyNum
  | i (n : Int)
  | f (q : ℚ)
deriving DecidableEq, Repr

structure Connection where
  typeid : Int
  connected : Bool
  callit : Option Nat
  data : Option (List PyNum)
deriving DecidableEq, Repr

/-- `Connection.__init__` -/
def Connection.init : Connection :=
  { typeid := -1, connected := false, callit := none, data := none }

/-- `Connection.update(typeid, connected, callit=None)` -/
def Connection.update (c : Connection) (typeid : Int) (connected : Bool)
    (callit : Option Nat) : Connection :=
  { c with typeid := typeid, connected := connected, callit := callit }

structure LoopState where
  connections : List Connection
  used : List Bool
  listingStatus : CommandState
  uselist : Bool
  count : Nat
deriving DecidableEq, Repr

/-- The loop state right after the startup writes of `BuildHAT.loop`
(`listing_status = SENT` exactly when `uselist` holds). -/
def initLoop (uselist : Bool) : LoopState :=
  { connections := List.replicate 4 Connection.init,
    used := List.replicate 4 false,
    listingStatus := if uselist then .SENT else .NONE,
    uselist := uselist,
    count := 0 }

inductive Signal
  | listNotify
  | listNotifyTimer
  | rampDone (portid : Nat)
  | pulseDone (portid : Nat)
  | portData (portid : Nat)
  | callback (c : Nat)
  | vin
  | deviceStartup (portid : Nat)
  | matrixOn (portid : Nat)
deriving DecidableEq, Repr

inductive LoopFail
  | raised
  | crash
deriving DecidableEq, Repr

/-- The `P<n>:` message dispatch of `BuildHAT.loop` (the `elif` chain on the
suffix `msg = line[2:]`), reported as its effect: an optional new
`Connection` value for the port, the notifications/writes it performs, and
whether it is one of the three listing confirmations that increment `count`
(connected, connected-passive, not-connected — the increment itself is
guarded by `uselist and listing_status == SENT` in `portStatusBody`). -/
def portStatusAction (line : Line) (portid : Nat) (conn : Connection)
    (devUsed : Bool) : Except LoopFail (Option Connection × List Signal × Bool) :=
  let msg := line.drop 2
  if cmp msg CONNECTED then
    match pyIntHex? (line.drop (2 + CONNECTED.length)) with
    | none => .error .crash
    | some typeid =>
      .ok (some (conn.update typeid true none),
        if devUsed then [Signal.deviceStartup portid]
        else if typeid = 64 then [Signal.matrixOn portid] else [], true)
  else if cmp msg CONNECTEDPASSIVE then
    match pyIntHex? (line.drop (2 + CONNECTEDPASSIVE.length)) with
    | none => .error .crash
    | some typeid =>
      .ok (some (conn.update typeid true none),
        if devUsed then [Signal.deviceStartup portid] else [], true)
  else if cmp msg DEVCONNECTING then .ok (none, [], false)
  else if cmp msg DEVSERIALCOMM then
    match pyIntHex? (line.drop (2 + DEVSERIALCOMM.length)) with
    | none => .error .crash
    | some _ => .ok (none, [], false)
  else if cmp msg DISCONNECTED then .ok (some (conn.update (-1) false none), [], false)
  else if cmp msg DEVCHECKSUMERR then .ok (some (conn.update (-1) false none), [], false)
  else if cmp msg DEVTIMEOUT then .ok (some (conn.update (-1) false none), [], false)
  else if cmp msg NOTCONNECTED then .ok (some (conn.update (-1) false none), [], true)
  else if cmp msg RAMPDONE then .ok (none, [Signal.rampDone portid], false)
  else if cmp msg PULSEDONE then .ok (none, [Signal.pulseDone portid], false)
  else .ok (none, [], false)

/-- The `P<n>:` port-status dispatch of `BuildHAT.loop`, given the parsed
port index and that port's registry/connection entries: apply the dispatched
effect to the loop state (the connection update happens before the count
increment, as in the source; neither touches `uselist`/`listing_status`). -/
def portStatusBody (s : LoopState) (line : Line) (portid : Nat) (conn : Connection)
    (devUsed : Bool) : Except LoopFail (LoopState × List Signal) :=
  match portStatusAction line portid conn devUsed with
  | .error e => .error e
  | .ok (upd, sigs, bump) =>
    let s1 := match upd with
      | some c => { s with connections := s.connections.set portid c }
      | none => s
    let s2 := if bump ∧ s.uselist = true ∧ s.listingStatus = .SENT
      then { s1 with count := s1.count + 1 } else s1
    .ok (s2, sigs)

/-- The `P<n>:` port-status branch, including the index parse
(`portid = int(line[1])`) and the registry lookup; `crash` models the
`ValueError`/`IndexError` a malformed line would raise. -/
def portStatus (s : LoopState) (line : Line) : Except LoopFail (LoopState × List Signal) :=
  if (decide (0 < line.length) && (line.headD ' ' == 'P')) = true then
    match line.get? 2 with
    | none => .error .crash
    | some c2 =>
      if c2 == ':' then
        match (line.get? 1).bind decDigit? with
        | none => .error .crash
        | some portid =>
          match s.used.get? portid, s.connections.get? portid with
          | some devUsed, some conn => portStatusBody s line portid conn devUsed
          | _, _ => .error .crash
      else .ok (s, [])
  else .ok (s, [])

def endsWith (s t : Line) : Bool :=
  s.drop (s.length - t.length) == t

/-- A decimal literal as accepted by Python `float` on voltage/data tokens:
optional sign, digits with an optional fraction part (`1.`, `.5`, `1.5`).
The value is represented exactly as a rational; no checked property depends
on a sample payload, so IEEE-754 rounding and exotic float syntax
(exponents, `inf`, `nan`) are not modelled. -/
def pyDecFloat? (d : Line) : Option ℚ :=
  let p := signSplit (stripWS d)
  let sgn : ℚ := if p.1 then -1 else 1
  match p.2.splitOn '.' with
  | [ip] => (digitsVal? decDigit? 10 ip).map fun n => sgn * (n : ℚ)
  | [ip, fp] =>
    match digitsVal? decDigit? 10 ip, digitsVal? decDigit? 10 fp with
    | some n, some f => some (sgn * ((n : ℚ) + (f : ℚ) / (10 : ℚ) ^ fp.length))
    | some n, none => if fp = [] then some (sgn * (n : ℚ)) else none
    | none, some f => if ip = [] then some (sgn * ((f : ℚ) / (10 : ℚ) ^ fp.length)) else none
    | none, none => none
  | _ => none

/-- The voltage-line branch (`line[1] == "."` and stripped line ends in
`" V"`): parse the float, store it, notify the voltage waiter. -/
def voltageCheck (line : Line) : Except LoopFail (List Signal) :=
  if (decide (5 ≤ line.length) && (line.get? 1 == some '.')
      && endsWith (stripWS line) " V".data) = true then
    match pyDecFloat? (((stripWS line).splitOn ' ').headD []) with
    | none => .error .crash
    | some _ => .ok [Signal.vin]
  else .ok []

/-- Decode the space-separated numeric fields of a `P<n>C`/`P<n>M` data line:
a token containing `.` is converted with `float`, any other nonempty token
with `int`; empty tokens are skipped; `none` models the `ValueError` of a
malformed token. -/
def parseData : List Line → Option (List PyNum)
  | [] => some []
  | d :: rest =>
    if d.contains '.' then
      match pyDecFloat? d, parseData rest with
      | some q, some l => some (.f q :: l)
      | _, _ => none
    else if d ≠ [] then
      match pyInt? d, parseData rest with
      | some n, some l => some (.i n :: l)
      | _, _ => none
    else parseData rest

/-- The `P<n>C`/`P<n>M` data-line branch: store the decoded sample, enqueue a
callback event when a callback is registered, notify the port waiter. -/
def dataCheck (s : LoopState) (line : Line) : Except LoopFail (LoopState × List Signal) :=
  if (decide (0 < line.length) && (line.headD ' ' == 'P')
      && ((line.get? 2 == some 'C') || (line.get? 2 == some 'M'))) = true then
    match (line.get? 1).bind decDigit? with
    | none => .error .crash
    | some portid =>
      match parseData ((stripWS (line.drop 5)).splitOn ' ') with
      | none => .error .crash
      | some newdata =>
        match s.connections.get? portid with
        | none => .error .crash
        | some conn =>
          let sigs := (match conn.callit with
            | some c => [Signal.callback c]
            | none => []) ++ [Signal.portData portid]
          .ok ({ s with
            connections := s.connections.set portid { conn with data := some newdata } }, sigs)
  else .ok (s, [])

/-- `if listing_status == SENT and cmp(line, FIRMWARE): listing_status = FINISHED` -/
def listingCheck (s : LoopState) (line : Line) : LoopState :=
  if s.listingStatus = .SENT ∧ cmp line FIRMWARE = true
    then { s with listingStatus := .FINISHED } else s

/-- The `listing_status == FINISHED` block: with `uselist` and at least 4
port reports counted, leave listing mode and notify the startup condition;
`FINISHED` without `uselist` raises `BuildHATError`. -/
def finishedCheck (s : LoopState) : Except LoopFail (LoopState × List Signal) :=
  if s.listingStatus = .FINISHED then
    if s.uselist then
      if 4 ≤ s.count then
        .ok ({ s with listingStatus := .NONE, uselist := false }, [Signal.listNotify])
      else .ok (s, [])
    else .error .raised
  else .ok (s, [])

/-- `if not uselist and cmp(line, DONE)`: schedule (via `Timer(8.0)`) a
notification of the startup condition. -/
def doneCheck (s : LoopState) (line : Line) : List Signal :=
  if s.uselist = false ∧ cmp line DONE = true then [Signal.listNotifyTimer] else []

/-- One iteration of `BuildHAT.loop` on one read line: the sequential `if`
blocks of the loop body, threaded left to right.  The baud-rate-preamble
branch only resets the (unmodelled) `device_is_connecting` clock and is
omitted. -/
def loopStep (s : LoopState) (line : Line) : Except LoopFail (LoopState × List Signal) :=
  match portStatus s line with
  | .error e => .error e
  | .ok (s1, sig1) =>
    match voltageCheck line with
    | .error e => .error e
    | .ok sigv =>
      match dataCheck s1 line with
      | .error e => .error e
      | .ok (s2, sigd) =>
        let s3 := listingCheck s2 line
        match finishedCheck s3 with
        | .error e => .error e
        | .ok (s4, sigf) =>
          .ok (s4, sig1 ++ sigv ++ sigd ++ sigf ++ doneCheck s4 line)

def runLoop (s : LoopState) : List Line → Except LoopFail (LoopState × List Signal)
  | [] => .ok (s, [])
  | line :: rest =>
    match loopStep s line with
    | .error e => .error e
    | .ok (s1, sigs) =>
      match runLoop s1 rest with
      | .error e => .error e
      | .ok (s2, sigs2) => .ok (s2, sigs ++ sigs2)

def runSignals? (s : LoopState) (lines : List Line) : Option (List Signal) :=
  match runLoop s lines with
  | .ok (_, sigs) => some sigs
  | .error _ => none

def runState? (s : LoopState) (lines : List Line) : Option LoopState :=
  match runLoop s lines with
  | .ok (s', _) => some s'
  | .error _ => none

def countListSignals (sigs : List Signal) : Nat :=
  (sigs.filter fun g => g == Signal.listNotify || g == Signal.listNotifyTimer).length

/-- The signals of a port-status dispatch outcome (empty on a crash). -/
def actionSigs : Except LoopFail (Option Connection × List Signal × Bool) → List Signal
  | .ok (_, sigs, _) => sigs
  | .error _ => []

def portDigit (p : Nat) : Char := Char.ofNat (48 + p)

/-- The three kinds of per-port report during a listing: connected to an
active device (ID 0x30, a motor), connected to a passive device (ID 0x2), or
no device detected. -/
def portReportLine (p : Nat) : Fin 3 → Line
  | 0 => 'P' :: portDigit p :: (CONNECTED ++ [' ', '3', '0'] ++ crlf)
  | 1 => 'P' :: portDigit p :: (CONNECTEDPASSIVE ++ [' ', '2'] ++ crlf)
  | 2 => 'P' :: portDigit p :: (NOTCONNECTED ++ crlf)

def doneLine : Line := DONE ++ crlf

def rampDoneLine (p : Nat) : Line := 'P' :: portDigit p :: (RAMPDONE ++ crlf)

def pulseDoneLine (p : Nat) : Line := 'P' :: portDigit p :: (PULSEDONE ++ crlf)

/-- A connect report carrying the (signed!) hex ID `-1`. -/
def badConnLine : Line := 'P' :: '0' :: (CONNECTED ++ [' ', '-', '1'] ++ crlf)

/-- A listing: one report per port (any mix), then the firmware banner that
ends the `list` output. -/
def listingTrace (mix : Fin 4 → Fin 3) : List Line :=
  [portReportLine 0 (mix 0), portReportLine 1 (mix 1), portReportLine 2 (mix 2),
   portReportLine 3 (mix 3), fwVersionLine1]

/-- The invariant of C8 as a boolean over the port table: `typeid = -1`
implies not connected. -/
def connInv (s : LoopState) : Bool :=
  s.connections.all fun c => !(c.typeid == -1) || !c.connected

/-! ### Pending ramp/pulse completions (Synchronization Layer)

`Motor._run_positional_ramp` / `Motor._run_for_seconds` (motors.py) create a
`Future`, append it to the per-port `rampftr`/`pulseftr` queue, and only then
write the ramp/pulse command:

```python
ftr = Future()
self._hat.rampftr[self.port].append(ftr)
self._write(cmd)
ftr.result()
```

The definition and fulfilment side of these queues is not part of the source
tree (whose `serinterface.py` revision still notifies bare per-port condition
variables instead). -/

/-- Modelled from the spec: the per-port FIFO queues of `PendingCompletion`
records (`rampftr` / `pulseftr`), which the Dispatcher Loop fulfils exactly
once, oldest first, when the matching `ramp done` / `pulse done` line for
that port arrives (spec §3, §4.3, §4.4); the record is created by the caller
before the triggering command is written.  Records are identified by an id. -/
structure CompletionState where
  rampftr : List (List Nat)
  pulseftr : List (List Nat)
deriving DecidableEq, Repr

/-- Caller side of a ramp command: append a fresh completion record for the
port, then write the command. -/
def issueRamp (st : CompletionState) (p : Nat) (rid : Nat) : CompletionState :=
  { st with rampftr := st.rampftr.set p ((st.rampftr.getD p []) ++ [rid]) }

def issuePulse (st : CompletionState) (p : Nat) (rid : Nat) : CompletionState :=
  { st with pulseftr := st.pulseftr.set p ((st.pulseftr.getD p []) ++ [rid]) }

/-- Dispatcher side: a `ramp done` line for port `p` fulfils (pops) the
oldest pending ramp record of that port. -/
def fulfilRamp (st : CompletionState) (p : Nat) : CompletionState × Option Nat :=
  match st.rampftr.getD p [] with
  | [] => (st, none)
  | rid :: rest => ({ st with rampftr := st.rampftr.set p rest }, some rid)

def fulfilPulse (st : CompletionState) (p : Nat) : CompletionState × Option Nat :=
  match st.pulseftr.getD p [] with
  | [] => (st, none)
  | rid :: rest => ({ st with pulseftr := st.pulseftr.set p rest }, some rid)

/-! ### Port ownership (serinterface.py `use_device`/`disuse_device`,
devices.py `Device.__init__`/`Device.__del__`) -/

/-- `BuildHAT.use_device`: register a device object (identified by an id) as
using a port; fails with `DeviceError` if the port already has a live user. -/
def use_device (used : List (Option Nat)) (port dev : Nat) : Except Unit (List (Option Nat)) :=
  match used.get? port with
  | some none => .ok (used.set port (some dev))
  | some (some _) => .error ()
  | none => .error ()

/-- `BuildHAT.disuse_device`: unregister the port's user (after invoking its
shutdown hook). -/
def disuse_device (used : List (Option Nat)) (port : Nat) : List (Option Nat) :=
  used.set port none

/-- The port-letter validation of `Device.__init__`:
`p = ord(port) - ord('A')`, valid iff `0 ≤ p ≤ 3`. -/
def devicePortIndex? (port : Char) : Option Nat :=
  let p : Int := (port.toNat : Int) - 65
  if 0 ≤ p ∧ p ≤ 3 then some p.toNat else none

/-- The `Device._used` flag check of `Device.__init__`: raise
`DeviceError("Port already used")` when the flag is set, otherwise claim the
port (`Device._used[p] = True`). -/
def deviceClaim (used : List Bool) (p : Nat) : Except Unit (List Bool) :=
  if used.getD p false then .error () else .ok (used.set p true)

/-- `Device.__del__` clears the flag. -/
def deviceRelease (used : List Bool) (p : Nat) : List Bool :=
  used.set p false

/-! ### Matrix (matrix.py) -/

/-- A pixel is a `(color, brightness)` pair. -/
abbrev Pixel := Nat × Nat

inductive DevCmd
  | select (port : Nat) (idx : Int) (rate : Nat)
  | deselect (port : Nat)
  | write1 (port : Nat) (data : List Nat)
  | portOff (port : Nat)
deriving DecidableEq, Repr

inductive DevErr
  | deviceError
  | matrixError
  | motorError
deriving DecidableEq, Repr

/-- The matrix-relevant device state.  `connOk` abbreviates a successful
`isconnected()` (device present and type unchanged); after
`Matrix.__init__`, `simplemode = 2` (`mode(2)`), `combimode = -1` and
`interval = 10`. -/
structure MatrixState where
  port : Nat
  connOk : Bool
  simplemode : Int
  combimode : Int
  interval : Nat
  matrix : List (List Pixel)
deriving DecidableEq, Repr

/-- `Device.select`: re-request data for the current simple/combi mode. -/
def matrixSelect (m : MatrixState) : Except DevErr (List DevCmd) :=
  if m.connOk = false then .error .deviceError
  else if m.simplemode ≠ -1 then .ok [.select m.port m.simplemode m.interval]
  else if m.combimode ≠ -1 then .ok [.select m.port m.combimode m.interval]
  else .error .deviceError

/-- `Device._write1` (via `_write`, which first checks `isconnected()`). -/
def matrixWrite1 (m : MatrixState) (data : List Nat) : Except DevErr (List DevCmd) :=
  if m.connOk then .ok [.write1 m.port data] else .error .deviceError

/-- `Device.deselect`. -/
def matrixDeselect (m : MatrixState) : Except DevErr (List DevCmd) :=
  if m.connOk then .ok [.deselect m.port] else .error .deviceError

/-- One output byte per pixel: `(brightness << 4) | color`. -/
def pixelByte (px : Pixel) : Nat := (px.2 <<< 4) ||| px.1

/-- The frame written by `Matrix._output`: `0xc2` followed by the 9 pixel
bytes in row-major order. -/
def matrixOutputBytes (m : MatrixState) : List Nat :=
  0xc2 :: (m.matrix.map fun row => row.map pixelByte).flatten

/-- `Matrix._output`: select, write the frame, deselect. -/
def matrixOutput (m : MatrixState) : Except DevErr (List DevCmd) :=
  match matrixSelect m with
  | .error e => .error e
  | .ok c1 =>
    match matrixWrite1 m (matrixOutputBytes m) with
    | .error e => .error e
    | .ok c2 =>
      match matrixDeselect m with
      | .error e => .error e
      | .ok c3 => .ok (c1 ++ c2 ++ c3)

def blankMatrix : List (List Pixel) :=
  List.replicate 3 (List.replicate 3 (0, 0))

/-- `Matrix.clear()` with no pixel argument: blank every cell, then write the
frame out. -/
def matrixClear (m : MatrixState) : Except DevErr (MatrixState × List DevCmd) :=
  let m1 := { m with matrix := blankMatrix }
  (matrixOutput m1).map fun cs => (m1, cs)

/-- `Matrix.off` overrides `Device.off`: it never sends the `off` command,
it clears the pixels instead. -/
def matrixOff (m : MatrixState) : Except DevErr (MatrixState × List DevCmd) :=
  matrixClear m

/-- `Device.off`, the inherited power-off (`port <p> ; off`) that
`Matrix.off` deliberately does not use. -/
def deviceOff (port : Nat) : List DevCmd :=
  [.portOff port]

/-! ### Motor start (motors.py, `PassiveMotor.start` / `Motor.start`) -/

inductive MotorCmd
  | pwmSet (port : Nat) (value : ℚ)
  | setSpeed (port : Nat) (value : ℚ)
  | selPidSet (port : Nat) (rpm : Bool) (rate : Nat) (value : ℚ)
deriving DecidableEq, Repr

structure PassiveMotorState where
  port : Nat
  connOk : Bool
  defaultSpeed : ℚ
  currentspeed : ℚ
deriving DecidableEq, Repr

/-- `PassiveMotor.start(speed)` with an explicit speed argument.  The
already-at-this-speed check comes first, before validation; on success the
`pwm ; set speed/100` command is written. -/
def passiveMotorStart (m : PassiveMotorState) (speed : ℚ) :
    Except DevErr (PassiveMotorState × List MotorCmd) :=
  if m.currentspeed = speed then .ok (m, [])
  else if ¬(-100 ≤ speed ∧ speed ≤ 100) then .error .motorError
  else if m.connOk then
    .ok ({ m with currentspeed := speed }, [.pwmSet m.port (speed / 100)])
  else .error .deviceError

inductive MotorRunmode
  | NONE
  | FREE
  | DEGREES
  | SECONDS
deriving DecidableEq, Repr

structure MotorState where
  port : Nat
  connOk : Bool
  runmode : MotorRunmode
  currentspeed : ℚ
  defaultSpeed : ℚ
  rpm : Bool
  interval : Nat
deriving DecidableEq, Repr

/-- `Motor._speed_process`. -/
def motorSpeedProcess (m : MotorState) (speed : ℚ) : ℚ :=
  if m.rpm then speed / 60 else speed

/-- `Motor.start(speed)` with an explicit speed argument.  The preceding
`_wait_for_nonblocking()` joins the motor queue and neither changes state nor
writes.  In `FREE` mode at the recorded current speed: return with no write;
in `DEGREES`/`SECONDS` mode: return with no write; otherwise validate, apply
`_speed_process`, pick the long (with PID, from `NONE` mode) or short command
form, record `FREE`/the processed speed, and write. -/
def motorStart (m : MotorState) (speed : ℚ) :
    Except DevErr (MotorState × List MotorCmd) :=
  if m.runmode = .FREE ∧ m.currentspeed = speed then .ok (m, [])
  else if m.runmode ≠ .FREE ∧ m.runmode ≠ .NONE then .ok (m, [])
  else if ¬(-100 ≤ speed ∧ speed ≤ 100) then .error .motorError
  else
    let sp := motorSpeedProcess m speed
    let c := if m.runmode = .NONE then MotorCmd.selPidSet m.port m.rpm m.interval sp
      else MotorCmd.setSpeed m.port sp
    if m.connOk then .ok ({ m with runmode := .FREE, currentspeed := sp }, [c])
    else .error .deviceError

end BuildHat

namespace BuildHat

/-- C1: the firmware checksum is the specified 32-bit LFSR, a pure function of
the byte list: it is `1` on the empty sequence, always below `2 ^ 32`, and
extending the input by one byte `b` transforms the accumulator exactly by
`u ↦ ((if bit 31 set then (u <<< 1) xor 0x1d872b41 else u <<< 1) xor b) mask 32`;
a hand-computed vector is checked as well. -/
theorem checksum_lfsr :
    checksum [] = 1 ∧
    (∀ data : List Nat, checksum data < 2 ^ 32) ∧
    (∀ data b, checksum (data ++ [b]) =
      ((if checksum data &&& 0x80000000 ≠ 0 then (checksum data <<< 1) ^^^ 0x1d872b41
        else checksum data <<< 1) ^^^ b) &&& 0xFFFFFFFF) ∧
    checksum [0x10, 0x20, 0x30] = 0x38 := by
  refine ⟨rfl, fun data => ?_, fun data b => ?_, by decide⟩
  · exact Nat.lt_of_le_of_lt (checksum_foldl_le data 1 (by norm_num)) (by norm_num)
  · simp [checksum, List.foldl_append, checksumStep]

/-- C2 as stated is false at the boundary: with target `180` (inside
`[-180, 180]`) and current absolute angle `0`, the shortest-mode delta is
`(180 - 0 + 180) % 360 - 180 = -180`, which is not in `(-180, 180]`. -/
theorem runToPositionDelta_boundary_cex :
    ((-180 : Int) ≤ 180 ∧ (180 : Int) ≤ 180) ∧
    runToPositionDelta 180 0 .shortest = -180 ∧
    ¬ (-180 < runToPositionDelta 180 0 .shortest) := by decide

/-- C2 amended: for every integer target in `[-180, 180]` and every current
absolute angle, the shortest-mode delta lies in the half-open-below interval
`[-180, 180)` (attaining `-180`, never `180`). -/
theorem runToPositionDelta_shortest_range (degrees apos : Int)
    (h1 : -180 ≤ degrees) (h2 : degrees ≤ 180) :
    -180 ≤ runToPositionDelta degrees apos .shortest ∧
    runToPositionDelta degrees apos .shortest < 180 := by
  show -180 ≤ (degrees - apos + 180) % 360 - 180 ∧
    (degrees - apos + 180) % 360 - 180 < 180
  omega

theorem runToPositionDelta_shortest_range_witness :
    ((-180 : Int) ≤ 170 ∧ (170 : Int) ≤ 180) ∧
    (-180 ≤ runToPositionDelta 170 42 .shortest ∧
      runToPositionDelta 170 42 .shortest < 180) :=
  ⟨by decide, runToPositionDelta_shortest_range 170 42 (by decide) (by decide)⟩

/-- C3: with current absolute angle `0` and target `170`, the clockwise delta
is `170` and the anticlockwise delta is `-190`; correspondingly, the ramp
target moves `newpos - pos` by `170/360` resp. `-190/360` rotations. -/
theorem runToPositionDelta_170_directions :
    runToPositionDelta 170 0 .clockwise = 170 ∧
    runToPositionDelta 170 0 .anticlockwise = -190 ∧
    ∀ pos : ℚ,
      runToPositionNewpos 170 0 pos .clockwise - pos / 360 = 170 / 360 ∧
      runToPositionNewpos 170 0 pos .anticlockwise - pos / 360 = -190 / 360 := by
  refine ⟨by decide, by decide, fun pos => ⟨?_, ?_⟩⟩
  · unfold runToPositionNewpos
    rw [show runToPositionDelta 170 0 .clockwise = 170 from by decide]
    push_cast
    ring
  · unfold runToPositionNewpos
    rw [show runToPositionDelta 170 0 .anticlockwise = -190 from by decide]
    push_cast
    ring

/-- C4 as stated is false: after six junk lines (more than 5) arriving within
the probe timeout, detection does not give up — a subsequent matching firmware
banner still yields the firmware state, not `Unknown`; the junk counter did
reach 6 before the banner. -/
theorem detect_junk_cex :
    (detectStateAfter 1 detectInit (c4junkTrace.take 6)).junklines = 6 ∧
    detectRun 1 detectInit c4junkTrace = .finished .FIRMWARE ∧
    detectRun 1 detectInit c4junkTrace ≠ .finished .OTHER := by decide

theorem detectTimeoutCheck_done (t1 : Nat) (s1 s' : DetectState) (r : HatState)
    (hd : detectTimeoutCheck t1 s1 = .done s' r) :
    5 < s'.versionRetries ∧ r = .OTHER := by
  unfold detectTimeoutCheck at hd
  dsimp only at hd
  split_ifs at hd <;>
    first
      | exact DetectOut.noConfusion hd
      | (injection hd with hs hr
         subst hs
         subst hr
         exact ⟨by assumption, rfl⟩)

theorem detectClassify_done_cases (fwv : Int) (s : DetectState) (t : Nat)
    (line : Line) (s' : DetectState) (r : HatState)
    (h : detectClassify fwv s t line = .done s' r) :
    cmp line FIRMWARE = true ∨ cmp line BOOTLOADER = true ∨
      (5 < s'.versionRetries ∧ r = .OTHER) := by
  by_cases hf : cmp line FIRMWARE = true
  · exact .inl hf
  by_cases hb : cmp line BOOTLOADER = true
  · exact .inr (.inl hb)
  refine .inr (.inr ?_)
  unfold detectClassify at h
  rw [if_neg hf, if_neg hb] at h
  split at h
  · exact DetectOut.noConfusion h
  split at h
  · exact DetectOut.noConfusion h
  split at h
  · exact DetectOut.noConfusion h
  split at h
  · exact DetectOut.noConfusion h
  · exact detectTimeoutCheck_done _ _ _ _ h

/-- C4 amended: every unexpected non-empty, non-blank line read while waiting
for the version reply increments the junk counter, but the junk counter never
triggers giving up: detection stops early only on a firmware/bootloader
banner, or with `Unknown` after more than 5 timed-out version probes — which
is what no data at all produces (last conjunct: reads that always time out
end in `Unknown`). -/
theorem detect_junk_amended :
    (∀ (fwv : Int) (s : DetectState) (t : Nat) (line : Line) (chat : Bool),
      s.versionStatus = .SENT → line ≠ [] → line ≠ crlf → line ≠ versionEcho →
      cmp line FIRMWARE = false → cmp line BOOTLOADER = false →
      classifyChatter line = some chat →
      (detectStep fwv s t line).junkCount? = some (s.junklines + 1)) ∧
    (∀ (fwv : Int) (s : DetectState) (t : Nat) (line : Line) (s' : DetectState)
      (r : HatState), detectStep fwv s t line = .done s' r →
      cmp line FIRMWARE = true ∨ cmp line BOOTLOADER = true ∨
        (5 < s'.versionRetries ∧ r = .OTHER)) ∧
    detectRun 1 detectInit noDataTrace = .finished .OTHER := by
  refine ⟨?_, ?_, by decide⟩
  · intro fwv s t line chat hw h2 h3 h4 h5 h6 h7
    obtain ⟨vs, vt, vr, jl, dc⟩ := s
    replace hw : vs = .SENT := hw
    subst hw
    simp only [detectStep, detectClassify]
    simp [h2, h3, h4, h5, h6, h7]
    unfold detectTimeoutCheck
    dsimp only
    split_ifs <;> rfl
  · intro fwv s t line s' r h
    unfold detectStep at h
    exact detectClassify_done_cases _ _ _ _ _ _ h

theorem detect_junk_amended_witness :
    (detectStep 1 ⟨.SENT, 0, 0, 0, false⟩ 0 junkLine).junkCount? = some 1 ∧
    (cmp ([] : Line) FIRMWARE = true ∨ cmp ([] : Line) BOOTLOADER = true ∨
      (5 < (⟨.NONE, 0, 6, 0, false⟩ : DetectState).versionRetries ∧
        HatState.OTHER = HatState.OTHER)) :=
  ⟨detect_junk_amended.1 1 ⟨.SENT, 0, 0, 0, false⟩ 0 junkLine false rfl
      (by decide) (by decide) (by decide) (by decide) (by decide) (by decide),
    detect_junk_amended.2.1 1 ⟨.SENT, 0, 5, 0, false⟩ 6 []
      ⟨.NONE, 0, 6, 0, false⟩ .OTHER (by decide)⟩

theorem all_set {α} (p : α → Bool) (l : List α) (i : Nat) (a : α)
    (hl : l.all p = true) (ha : p a = true) : (l.set i a).all p = true := by
  rw [List.all_eq_true] at *
  intro x hx
  rcases List.mem_or_eq_of_mem_set hx with h | h
  · exact hl x h
  · subst h
    exact ha

theorem portStatusAction_sigs (line : Line) (portid : Nat) (conn : Connection)
    (devUsed : Bool) :
    countListSignals (actionSigs (portStatusAction line portid conn devUsed)) = 0 := by
  unfold portStatusAction
  dsimp only
  repeat' split
  all_goals rfl

theorem portStatusBody_ok (s : LoopState) (line : Line) (portid : Nat)
    (conn : Connection) (devUsed : Bool) (s' : LoopState) (sigs : List Signal)
    (h : portStatusBody s line portid conn devUsed = .ok (s', sigs)) :
    s'.uselist = s.uselist ∧ s'.listingStatus = s.listingStatus ∧
      countListSignals sigs = 0 := by
  unfold portStatusBody at h
  rcases ha : portStatusAction line portid conn devUsed with e | ⟨u, sigs0, b⟩
  · rw [ha] at h
    cases h
  · rw [ha] at h
    dsimp only at h
    have hs : countListSignals sigs0 = 0 := by
      have h0 := portStatusAction_sigs line portid conn devUsed
      rw [ha] at h0
      exact h0
    rcases u with _ | c <;> split_ifs at h <;> cases h <;> exact ⟨rfl, rfl, hs⟩

theorem portStatus_ok (s : LoopState) (line : Line) (s' : LoopState)
    (sigs : List Signal) (h : portStatus s line = .ok (s', sigs)) :
    s'.uselist = s.uselist ∧ s'.listingStatus = s.listingStatus ∧
      countListSignals sigs = 0 := by
  unfold portStatus at h
  repeat' split at h
  all_goals first
    | exact portStatusBody_ok _ _ _ _ _ _ _ h
    | (cases h
       exact ⟨rfl, rfl, rfl⟩)
    | cases h

theorem voltageCheck_ok (line : Line) (sigs : List Signal)
    (h : voltageCheck line = .ok sigs) : countListSignals sigs = 0 := by
  unfold voltageCheck at h
  repeat' split at h
  all_goals cases h
  all_goals rfl

theorem dataCheck_ok (s : LoopState) (line : Line) (s' : LoopState)
    (sigs : List Signal) (h : dataCheck s line = .ok (s', sigs)) :
    s'.uselist = s.uselist ∧ s'.listingStatus = s.listingStatus ∧
      countListSignals sigs = 0 := by
  unfold dataCheck at h
  repeat' split at h
  all_goals cases h
  all_goals refine ⟨rfl, rfl, ?_⟩
  all_goals simp [countListSignals]

theorem listingCheck_uselist (s : LoopState) (line : Line) :
    (listingCheck s line).uselist = s.uselist := by
  unfold listingCheck
  split <;> rfl

theorem listingCheck_connections (s : LoopState) (line : Line) :
    (listingCheck s line).connections = s.connections := by
  unfold listingCheck
  split <;> rfl

theorem finishedCheck_of_not_uselist (s : LoopState) (s' : LoopState)
    (sigs : List Signal) (hu : s.uselist = false)
    (h : finishedCheck s = .ok (s', sigs)) : s' = s ∧ sigs = [] := by
  unfold finishedCheck at h
  rw [hu] at h
  simp only [Bool.false_eq_true, if_false] at h
  split at h
  · cases h
  · cases h
    exact ⟨rfl, rfl⟩

theorem finishedCheck_connections (s : LoopState) (s' : LoopState)
    (sigs : List Signal) (h : finishedCheck s = .ok (s', sigs)) :
    s'.connections = s.connections := by
  unfold finishedCheck at h
  repeat' split at h
  all_goals cases h
  all_goals rfl

theorem countListSignals_append (a b : List Signal) :
    countListSignals (a ++ b) = countListSignals a + countListSignals b := by
  unfold countListSignals
  rw [List.filter_append, List.length_append]

theorem loop_listing_cex :
    (runSignals? (initLoop true) (listingTrace fun _ => 0)).map countListSignals = some 1 ∧
    (runSignals? (initLoop true) (listingTrace (fun _ => 0) ++ [doneLine])).map
      countListSignals = some 2 := by decide

theorem loop_listing_amended :
    (∀ mix : Fin 4 → Fin 3,
      (runSignals? (initLoop true) (listingTrace mix)).map countListSignals = some 1 ∧
      (runState? (initLoop true) (listingTrace mix)).map LoopState.uselist = some false) ∧
    (∀ (s : LoopState) (line : Line) (s' : LoopState) (sigs : List Signal),
      s.uselist = false → loopStep s line = .ok (s', sigs) →
      s'.uselist = false ∧
        countListSignals sigs = (if cmp line DONE = true then 1 else 0)) := by
  constructor
  · decide
  · intro s line s' sigs hu h
    unfold loopStep at h
    rcases hp : portStatus s line with e | ⟨s1, sig1⟩
    · rw [hp] at h
      cases h
    rw [hp] at h
    dsimp only at h
    rcases hv : voltageCheck line with e | sigv
    · rw [hv] at h
      cases h
    rw [hv] at h
    dsimp only at h
    rcases hd : dataCheck s1 line with e | ⟨s2, sigd⟩
    · rw [hd] at h
      cases h
    rw [hd] at h
    dsimp only at h
    rcases hf : finishedCheck (listingCheck s2 line) with e | ⟨s4, sigf⟩
    · rw [hf] at h
      cases h
    rw [hf] at h
    dsimp only at h
    cases h
    obtain ⟨hps1, hps2, hps3⟩ := portStatus_ok s line s1 sig1 hp
    have hv0 := voltageCheck_ok line sigv hv
    obtain ⟨hd1, hd2, hd3⟩ := dataCheck_ok s1 line s2 sigd hd
    have hu3 : (listingCheck s2 line).uselist = false := by
      rw [listingCheck_uselist, hd1, hps1, hu]
    obtain ⟨hfe, hfs⟩ := finishedCheck_of_not_uselist _ _ _ hu3 hf
    have hu4 : s'.uselist = false := by rw [hfe]; exact hu3
    refine ⟨hu4, ?_⟩
    subst hfs
    rw [countListSignals_append, countListSignals_append, countListSignals_append,
      countListSignals_append, hps3, hv0, hd3]
    by_cases hD : cmp line DONE = true
    · rw [if_pos hD]
      unfold doneCheck
      rw [if_pos ⟨hu4, hD⟩]
      rfl
    · rw [if_neg hD]
      unfold doneCheck
      rw [if_neg fun hc => hD hc.2]
      rfl

theorem loop_listing_amended_witness :
    ((runSignals? (initLoop true) (listingTrace fun _ => 0)).map countListSignals = some 1 ∧
      (runState? (initLoop true) (listingTrace fun _ => 0)).map LoopState.uselist
        = some false) ∧
    ((initLoop false).uselist = false ∧
      countListSignals [Signal.listNotifyTimer]
        = (if cmp doneLine DONE = true then 1 else 0)) :=
  ⟨loop_listing_amended.1 (fun _ => 0),
    loop_listing_amended.2 (initLoop false) doneLine (initLoop false)
      [Signal.listNotifyTimer] rfl rfl⟩

theorem portStatusAction_upd (line : Line) (portid : Nat) (conn : Connection)
    (devUsed : Bool) (c : Connection) (sigs : List Signal) (b : Bool)
    (hg1 : ∀ id, pyIntHex? (line.drop (2 + CONNECTED.length)) = some id → 0 ≤ id)
    (hg2 : ∀ id, pyIntHex? (line.drop (2 + CONNECTEDPASSIVE.length)) = some id → 0 ≤ id)
    (ha : portStatusAction line portid conn devUsed = .ok (some c, sigs, b)) :
    (!(c.typeid == -1) || !c.connected) = true := by
  unfold portStatusAction at ha
  dsimp only at ha
  repeat' split at ha
  all_goals try cases ha
  all_goals try rfl
  all_goals
    simp only [Connection.update, Bool.not_true, Bool.or_false,
      beq_eq_false_iff_ne, ne_eq, Bool.not_eq_true']
  all_goals intro hv
  all_goals subst hv
  all_goals
    first
      | exact absurd (hg1 _ (by assumption)) (by norm_num)
      | exact absurd (hg2 _ (by assumption)) (by norm_num)

theorem portStatusBody_inv (s : LoopState) (line : Line) (portid : Nat)
    (conn : Connection) (devUsed : Bool) (s' : LoopState) (sigs : List Signal)
    (hinv : connInv s = true)
    (hg1 : ∀ id, pyIntHex? (line.drop (2 + CONNECTED.length)) = some id → 0 ≤ id)
    (hg2 : ∀ id, pyIntHex? (line.drop (2 + CONNECTEDPASSIVE.length)) = some id → 0 ≤ id)
    (h : portStatusBody s line portid conn devUsed = .ok (s', sigs)) :
    connInv s' = true := by
  unfold portStatusBody at h
  rcases ha : portStatusAction line portid conn devUsed with e | ⟨u, sigs0, b⟩
  · rw [ha] at h
    cases h
  · rw [ha] at h
    dsimp only at h
    rcases u with _ | c
    · split_ifs at h <;> cases h <;> exact hinv
    · have hc := portStatusAction_upd line portid conn devUsed c sigs0 b hg1 hg2 ha
      split_ifs at h <;> cases h <;> exact all_set _ _ _ _ hinv hc

theorem portStatus_inv (s : LoopState) (line : Line) (s' : LoopState)
    (sigs : List Signal) (hinv : connInv s = true)
    (hg1 : ∀ id, pyIntHex? (line.drop (2 + CONNECTED.length)) = some id → 0 ≤ id)
    (hg2 : ∀ id, pyIntHex? (line.drop (2 + CONNECTEDPASSIVE.length)) = some id → 0 ≤ id)
    (h : portStatus s line = .ok (s', sigs)) : connInv s' = true := by
  unfold portStatus at h
  repeat' split at h
  all_goals first
    | exact portStatusBody_inv _ _ _ _ _ _ _ hinv hg1 hg2 h
    | (cases h
       exact hinv)
    | cases h

theorem dataCheck_inv (s : LoopState) (line : Line) (s' : LoopState)
    (sigs : List Signal) (hinv : connInv s = true)
    (h : dataCheck s line = .ok (s', sigs)) : connInv s' = true := by
  unfold dataCheck at h
  repeat' split at h
  all_goals cases h
  all_goals try exact hinv
  all_goals
    first
    | (rename_i conn0 heq0 _ _ _
       exact all_set _ _ _ _ hinv (List.all_eq_true.mp hinv conn0 (List.get?_mem heq0)))
    | (rename_i conn0 heq0 _ _
       exact all_set _ _ _ _ hinv (List.all_eq_true.mp hinv conn0 (List.get?_mem heq0)))

/-- C8 as stated is false on a connect report carrying a signed hex ID: on
the line `P0: connected to active ID -1`, Python's `int(x, 16)` accepts the
sign and yields `-1`, and the loop marks the port connected with type id
`-1`, so `typeid = -1` no longer implies `connected = false`. -/
theorem conn_typeid_cex :
    connInv (initLoop false) = true ∧
    (runState? (initLoop false) [badConnLine]).map connInv = some false ∧
    ((runState? (initLoop false) [badConnLine]).bind fun s =>
      (s.connections.get? 0).map fun c => (c.typeid, c.connected))
      = some (-1, true) := by
  decide

/-- C8 amended: at initialisation every port has `typeid = -1` and
`connected = false`, and one reader-loop step preserves the invariant
"`typeid = -1` implies `connected = false`" for every line whose connect /
connect-passive ID field, if it parses at all, parses to a nonnegative value
— that is, unless the wire carries a signed negative hex ID, which
`int(x, 16)` would accept. -/
theorem conn_typeid_amended :
    (∀ u, connInv (initLoop u) = true) ∧
    (∀ (s : LoopState) (line : Line) (s' : LoopState) (sigs : List Signal),
      connInv s = true →
      (∀ id, pyIntHex? (line.drop (2 + CONNECTED.length)) = some id → 0 ≤ id) →
      (∀ id, pyIntHex? (line.drop (2 + CONNECTEDPASSIVE.length)) = some id → 0 ≤ id) →
      loopStep s line = .ok (s', sigs) → connInv s' = true) := by
  constructor
  · intro u
    cases u <;> decide
  · intro s line s' sigs hinv hg1 hg2 h
    unfold loopStep at h
    rcases hp : portStatus s line with e | ⟨s1, sig1⟩
    · rw [hp] at h
      cases h
    rw [hp] at h
    dsimp only at h
    rcases hv : voltageCheck line with e | sigv
    · rw [hv] at h
      cases h
    rw [hv] at h
    dsimp only at h
    rcases hd : dataCheck s1 line with e | ⟨s2, sigd⟩
    · rw [hd] at h
      cases h
    rw [hd] at h
    dsimp only at h
    rcases hf : finishedCheck (listingCheck s2 line) with e | ⟨s4, sigf⟩
    · rw [hf] at h
      cases h
    rw [hf] at h
    dsimp only at h
    cases h
    have h1 := portStatus_inv s line s1 sig1 hinv hg1 hg2 hp
    have h2 := dataCheck_inv s1 line s2 sigd h1 hd
    have h4 := finishedCheck_connections _ _ _ hf
    unfold connInv
    rw [h4, listingCheck_connections]
    exact h2

theorem conn_typeid_amended_witness :
    connInv (initLoop true) = true ∧ connInv (initLoop false) = true :=
  ⟨conn_typeid_amended.1 true,
    conn_typeid_amended.2 (initLoop false) (rampDoneLine 0) (initLoop false)
      [Signal.rampDone 0] (conn_typeid_amended.1 false)
      (fun id h => by
        rw [show pyIntHex? (List.drop (2 + CONNECTED.length) (rampDoneLine 0))
          = none from by decide] at h
        exact Option.noConfusion h)
      (fun id h => by
        rw [show pyIntHex? (List.drop (2 + CONNECTEDPASSIVE.length) (rampDoneLine 0))
          = none from by decide] at h
        exact Option.noConfusion h)
      rfl⟩

theorem length_eq_four {α} {l : List α} (h : l.length = 4) :
    ∃ a b c d, l = [a, b, c, d] := by
  rcases l with _ | ⟨a, l⟩
  · simp at h
  rcases l with _ | ⟨b, l⟩
  · simp at h
  rcases l with _ | ⟨c, l⟩
  · simp at h
  rcases l with _ | ⟨d, l⟩
  · simp at h
  rcases l with _ | ⟨e, l⟩
  · exact ⟨a, b, c, d, rfl⟩
  · simp only [List.length_cons] at h
    omega

/-- C5: for every port `p`, a `P<p>: ramp done` line makes the reader loop
signal exactly the port-`p` ramp waiter (leaving the loop state untouched),
and in the completion layer the record `rid` that the caller appended to the
empty port-`p` queue before writing its command is precisely the record this
fulfilment pops, emptying the queue again; likewise for pulse commands and
`P<p>: pulse done`. -/
theorem ramp_pulse_completion (s : LoopState) (p : Nat) (st : CompletionState)
    (rid : Nat) (hp4 : p < 4)
    (hu : s.uselist = false) (hl : s.listingStatus = .NONE)
    (hc : s.connections.length = 4) (hus : s.used.length = 4)
    (hrl : st.rampftr.length = 4) (hpl : st.pulseftr.length = 4)
    (hr : st.rampftr.getD p [] = []) (hq : st.pulseftr.getD p [] = []) :
    loopStep s (rampDoneLine p) = .ok (s, [Signal.rampDone p]) ∧
    loopStep s (pulseDoneLine p) = .ok (s, [Signal.pulseDone p]) ∧
    fulfilRamp (issueRamp st p rid) p =
      ({ st with rampftr := st.rampftr.set p [] }, some rid) ∧
    fulfilPulse (issuePulse st p rid) p =
      ({ st with pulseftr := st.pulseftr.set p [] }, some rid) := by
  rcases s with ⟨cs, us, ls, ul, ct⟩
  rcases st with ⟨rf, qf⟩
  obtain ⟨c0, c1, c2, c3, hcs⟩ := length_eq_four hc
  obtain ⟨u0, u1, u2, u3, hus4⟩ := length_eq_four hus
  obtain ⟨r0, r1, r2, r3, hrs⟩ := length_eq_four hrl
  obtain ⟨q0, q1, q2, q3, hqs⟩ := length_eq_four hpl
  replace hu : ul = false := hu
  replace hl : ls = .NONE := hl
  subst hcs hus4 hrs hqs hu hl
  interval_cases p
  · have h1 : r0 = [] := hr
    have h2 : q0 = [] := hq
    subst h1 h2
    exact ⟨rfl, rfl, rfl, rfl⟩
  · have h1 : r1 = [] := hr
    have h2 : q1 = [] := hq
    subst h1 h2
    exact ⟨rfl, rfl, rfl, rfl⟩
  · have h1 : r2 = [] := hr
    have h2 : q2 = [] := hq
    subst h1 h2
    exact ⟨rfl, rfl, rfl, rfl⟩
  · have h1 : r3 = [] := hr
    have h2 : q3 = [] := hq
    subst h1 h2
    exact ⟨rfl, rfl, rfl, rfl⟩

theorem ramp_pulse_completion_witness :
    loopStep (initLoop false) (rampDoneLine 2) = .ok (initLoop false, [Signal.rampDone 2]) ∧
    loopStep (initLoop false) (pulseDoneLine 2) = .ok (initLoop false, [Signal.pulseDone 2]) ∧
    fulfilRamp (issueRamp ⟨[[], [], [], []], [[], [], [], []]⟩ 2 7) 2 =
      (⟨[[], [], [], []], [[], [], [], []]⟩, some 7) ∧
    fulfilPulse (issuePulse ⟨[[], [], [], []], [[], [], [], []]⟩ 2 7) 2 =
      (⟨[[], [], [], []], [[], [], [], []]⟩, some 7) :=
  ramp_pulse_completion (initLoop false) 2 ⟨[[], [], [], []], [[], [], [], []]⟩ 7
    (by decide) rfl rfl rfl rfl rfl rfl rfl rfl

/-- C7: port ownership is exclusive, for both registries.  For the weakref
registry (`use_device`/`disuse_device`): acquiring a free port succeeds and
records the owner; while the owner is live every further acquisition of that
port fails with the port-in-use `DeviceError`; after the owner is released
any acquisition succeeds again.  The `Device._used` flag registry of
`Device.__init__`/`Device.__del__` behaves the same way. -/
theorem port_exclusivity :
    (∀ (used : List (Option Nat)) (port dev : Nat), used.get? port = some none →
      use_device used port dev = .ok (used.set port (some dev)) ∧
      (∀ dev2, use_device (used.set port (some dev)) port dev2 = .error ()) ∧
      (∀ dev2, use_device (disuse_device (used.set port (some dev)) port) port dev2
        = .ok ((disuse_device (used.set port (some dev)) port).set port (some dev2)))) ∧
    (∀ (used : List Bool) (p : Nat), p < used.length → used.getD p false = false →
      deviceClaim used p = .ok (used.set p true) ∧
      deviceClaim (used.set p true) p = .error () ∧
      deviceClaim (deviceRelease (used.set p true) p) p
        = .ok ((deviceRelease (used.set p true) p).set p true)) := by
  constructor
  · intro used port dev h
    have hlt : port < used.length := by
      rcases List.get?_eq_some.mp h with ⟨hl, _⟩
      exact hl
    refine ⟨?_, ?_, ?_⟩
    · unfold use_device
      rw [h]
    · intro dev2
      unfold use_device
      rw [List.get?_set_eq_of_lt _ hlt]
    · intro dev2
      unfold use_device disuse_device
      rw [List.get?_set_eq_of_lt]
      rw [List.length_set]
      exact hlt
  · intro used p hlt h
    have hset : (used.set p true).getD p false = true := by
      rw [List.getD_eq_get?, List.get?_set_eq_of_lt _ hlt]
      rfl
    have hrel : (deviceRelease (used.set p true) p).getD p false = false := by
      unfold deviceRelease
      rw [List.getD_eq_get?, List.set_set, List.get?_set_eq_of_lt _ hlt]
      rfl
    refine ⟨?_, ?_, ?_⟩
    · unfold deviceClaim
      rw [h]
      rfl
    · unfold deviceClaim
      rw [hset]
      rfl
    · unfold deviceClaim
      rw [hrel]
      rfl

theorem port_exclusivity_witness :
    (use_device [none, none, none, none] 1 5 = .ok [none, some 5, none, none] ∧
      (∀ dev2, use_device ([none, none, none, none].set 1 (some 5)) 1 dev2 = .error ()) ∧
      (∀ dev2, use_device (disuse_device ([none, none, none, none].set 1 (some 5)) 1) 1 dev2
        = .ok ((disuse_device ([none, none, none, none].set 1 (some 5)) 1).set 1 (some dev2)))) ∧
    (deviceClaim [false, false, false, false] 2 = .ok [false, false, true, false] ∧
      deviceClaim ([false, false, false, false].set 2 true) 2 = .error () ∧
      deviceClaim (deviceRelease ([false, false, false, false].set 2 true) 2) 2
        = .ok ((deviceRelease ([false, false, false, false].set 2 true) 2).set 2 true)) :=
  ⟨port_exclusivity.1 [none, none, none, none] 1 5 rfl,
    port_exclusivity.2 [false, false, false, false] 2 (by decide) rfl⟩

/-- C9: turning a matrix "off" clears the whole 3x3 buffer to `(0, 0)` and
writes that blank frame (select, `write1` of `0xc2` followed by nine zero
bytes, deselect); the port power-off command is never among the emitted
commands. -/
theorem matrix_off_blank (m : MatrixState) (hc : m.connOk = true)
    (hm : m.simplemode = 2) :
    matrixOff m = .ok ({ m with matrix := blankMatrix },
      [.select m.port 2 m.interval,
       .write1 m.port [0xc2, 0, 0, 0, 0, 0, 0, 0, 0, 0],
       .deselect m.port]) ∧
    (∀ q cs, matrixOff m = .ok cs → DevCmd.portOff q ∉ cs.2) := by
  have hout : matrixOff m = .ok ({ m with matrix := blankMatrix },
      [.select m.port 2 m.interval,
       .write1 m.port [0xc2, 0, 0, 0, 0, 0, 0, 0, 0, 0],
       .deselect m.port]) := by
    unfold matrixOff matrixClear matrixOutput matrixSelect matrixWrite1 matrixDeselect
    rw [hc, hm]
    norm_num
    rfl
  refine ⟨hout, fun q cs h => ?_⟩
  rw [hout] at h
  cases h
  simp

theorem matrix_off_blank_witness :
    matrixOff ⟨0, true, 2, -1, 10, [[(9, 10), (1, 2), (0, 0)], [(3, 4), (5, 6), (7, 8)],
        [(2, 2), (4, 4), (6, 6)]]⟩
      = .ok (⟨0, true, 2, -1, 10, blankMatrix⟩,
        [.select 0 2 10, .write1 0 [0xc2, 0, 0, 0, 0, 0, 0, 0, 0, 0], .deselect 0]) :=
  (matrix_off_blank ⟨0, true, 2, -1, 10, [[(9, 10), (1, 2), (0, 0)], [(3, 4), (5, 6), (7, 8)],
    [(2, 2), (4, 4), (6, 6)]]⟩ rfl rfl).1

/-- C10: calling `start` with an explicit speed equal to the recorded
current speed is a no-op — no command is written and the state is unchanged:
for `PassiveMotor` whenever the argument equals the current speed, and for
`Motor` whenever it is in free-run mode at that speed. -/
theorem start_noop_at_current_speed :
    (∀ (m : PassiveMotorState) (speed : ℚ), m.currentspeed = speed →
      passiveMotorStart m speed = .ok (m, [])) ∧
    (∀ (m : MotorState) (speed : ℚ), m.runmode = .FREE → m.currentspeed = speed →
      motorStart m speed = .ok (m, [])) := by
  constructor
  · intro m speed h
    unfold passiveMotorStart
    rw [if_pos h]
  · intro m speed h1 h2
    unfold motorStart
    rw [if_pos ⟨h1, h2⟩]

theorem start_noop_at_current_speed_witness :
    passiveMotorStart ⟨0, true, 20, 35⟩ 35 = .ok (⟨0, true, 20, 35⟩, []) ∧
    motorStart ⟨1, true, .FREE, -15, 20, false, 10⟩ (-15)
      = .ok (⟨1, true, .FREE, -15, 20, false, 10⟩, []) :=
  ⟨start_noop_at_current_speed.1 ⟨0, true, 20, 35⟩ 35 rfl,
    start_noop_at_current_speed.2 ⟨1, true, .FREE, -15, 20, false, 10⟩ (-15) rfl rfl⟩

end BuildHat
